import Mathlib

/-!
Verification of the Botelier voice call orchestrator.

This file gives a shallow embedding, in Lean 4, of the call-session
orchestrator and tool dispatch engine of the Botelier backend
(`botelier/voice/call_handler.py`, `botelier/voice/knowledge_handler.py`,
`botelier/voice/function_mapper.py`, `botelier/api/knowledge_bases.py`,
`botelier/models/knowledge_entry.py`), together with theorems about the
embedded definitions.  Database queries are modelled as pure functions over
explicit lists of rows; the asynchronous websocket / pipeline machinery is
modelled by an explicit event trace; exceptions are modelled with `Except`.
-/

namespace Botelier

/-! ## Knowledge retrieval service (`voice/knowledge_handler.py`) -/

/-- Embeds the module constant `MAX_KNOWLEDGE_CHARS = 50000` of
`knowledge_handler.py`: the hard character cap on the combined corpus. -/
def MAX_KNOWLEDGE_CHARS : Nat := 50000

/-- Embeds a row of the `knowledge_bases` table as used by
`load_hotel_knowledge`: its id and owning hotel. -/
structure KnowledgeBase where
  id : String
  hotel_id : String
deriving DecidableEq, Repr

/-- Embeds a row of the `knowledge_documents` table as used by
`load_hotel_knowledge`: owning knowledge base, filename, text content. -/
structure KnowledgeDocument where
  knowledge_base_id : String
  filename : String
  content : String
deriving DecidableEq, Repr

/-- Embeds the document-scoping query of `load_hotel_knowledge`
(lines 90-101): the knowledge bases of the hotel, then the documents whose
`knowledge_base_id` is among those bases. -/
def hotelDocuments (kbs : List KnowledgeBase) (docs : List KnowledgeDocument)
    (hotel_id : String) : List KnowledgeDocument :=
  docs.filter (fun d =>
    (kbs.filter (fun kb => kb.hotel_id == hotel_id)).any
      (fun kb => kb.id == d.knowledge_base_id))

/-- Embeds line 106-109 of `knowledge_handler.py`:
`"\n\n---\n\n".join(f"# {doc.filename}\n\n{doc.content}" for doc in documents)`. -/
def combinedContent (documents : List KnowledgeDocument) : String :=
  String.intercalate "\n\n---\n\n"
    (documents.map (fun doc => "# " ++ doc.filename ++ "\n\n" ++ doc.content))

/-- Embeds `load_hotel_knowledge(hotel_id)` of `knowledge_handler.py`.
The two database queries are passed in as the lists `kbs` and `docs` of all
rows; the function mirrors the source's two empty-result short-circuits and
the hard-cap truncation of the combined content. -/
def load_hotel_knowledge (kbs : List KnowledgeBase) (docs : List KnowledgeDocument)
    (hotel_id : String) : String :=
  let knowledge_bases := kbs.filter (fun kb => kb.hotel_id == hotel_id)
  if knowledge_bases.isEmpty then "" else
  let documents := docs.filter (fun d =>
    knowledge_bases.any (fun kb => kb.id == d.knowledge_base_id))
  if documents.isEmpty then "" else
  let combined_content := combinedContent documents
  if combined_content.length > MAX_KNOWLEDGE_CHARS then
    combined_content.take MAX_KNOWLEDGE_CHARS ++ "\n\n[... content truncated for length]"
  else
    combined_content

/-- Result of one run of `query_hotel_knowledge`: the answer delivered to
`params.result_callback`, whether the corpus load was reached, and whether
`query_with_rag` (the language-model completion) was invoked. -/
structure KnowledgeQueryResult where
  answer : String
  corpus_loaded : Bool
  rag_invoked : Bool
deriving DecidableEq, Repr

/-- Embeds `query_hotel_knowledge(params)` of `knowledge_handler.py`.
`question` and `hotel_id` are the two arguments (the source defaults each to
`""` when absent, so a missing argument is the empty string here).  The
`rag` parameter stands for `query_with_rag`: `Except.error` models the
exceptions the source catches (missing API key, request failure). -/
def query_hotel_knowledge (question hotel_id : String)
    (kbs : List KnowledgeBase) (docs : List KnowledgeDocument)
    (rag : String → String → Except String String) : KnowledgeQueryResult :=
  if question = "" then
    { answer := "I didn't catch your question. Could you please repeat that?"
      corpus_loaded := false
      rag_invoked := false }
  else if hotel_id = "" then
    { answer := "I'm sorry, I don't have access to hotel information right now."
      corpus_loaded := false
      rag_invoked := false }
  else
    let knowledge_content := load_hotel_knowledge kbs docs hotel_id
    if knowledge_content = "" then
      { answer := "I don't have that information available. Let me connect you with our front desk."
        corpus_loaded := true
        rag_invoked := false }
    else
      match rag knowledge_content question with
      | Except.ok a =>
          { answer := a, corpus_loaded := true, rag_invoked := true }
      | Except.error _ =>
          { answer := "I'm having trouble accessing that information. Please ask the front desk for assistance."
            corpus_loaded := true
            rag_invoked := true }

/-! ## Session orchestrator (`voice/call_handler.py`, `CallHandler.handle_call`) -/

/-- Embeds the columns of a `phone_numbers` row used by `handle_call`:
the number itself and the optional assistant assignment. -/
structure PhoneRecord where
  phone_number : String
  assistant_id : Option String
deriving DecidableEq, Repr

/-- Embeds the assistant row as `handle_call` and `_create_agent_config`
consume it (identity and the nullable behavioral texts the handler reads).
The current `models/assistant.py` does not declare all of these attributes
— see `create_agent_config_attribute_mismatch` below. -/
structure Assistant where
  id : String
  hotel_id : String
  name : String
  system_prompt : Option String
  greeting_message : Option String
deriving DecidableEq, Repr

/-- Embeds the fields of `VoiceAgentConfig` (from `voice/agent.py`) that the
verified properties depend on. -/
structure VoiceAgentConfig where
  agent_id : String
  hotel_id : String
  name : String
  system_prompt : String
  greeting_message : String
  enable_function_calling : Bool
deriving DecidableEq, Repr

/-- Embeds Python's `x or default` idiom on a nullable string column:
`None` and the empty string both fall back to the default. -/
def orDefault (x : Option String) (d : String) : String :=
  match x with
  | none => d
  | some s => if s = "" then d else s

/-- Embeds `CallHandler._create_agent_config(assistant)` on the fields kept
in `VoiceAgentConfig`; `enable_function_calling` is the literal `True` of the
source ("Always enable for tool support").  This is the handler's own text;
on the current `Assistant` model several of the attributes it reads do not
exist (see `create_agent_config_attribute_mismatch`). -/
def create_agent_config (assistant : Assistant) : VoiceAgentConfig :=
  { agent_id := assistant.id
    hotel_id := assistant.hotel_id
    name := assistant.name
    system_prompt := orDefault assistant.system_prompt "You are a friendly hotel assistant."
    greeting_message := orDefault assistant.greeting_message "Hello! How can I help you today?"
    enable_function_calling := true }

/-- Embeds the parsed first websocket message as `handle_call` reads it:
`message["event"]`, the top-level `streamSid`, and `start.callSid`; `none`
models an absent key (Python `dict.get` returning `None`). -/
structure StartMessage where
  event : String
  streamSid : Option String
  callSid : Option String
deriving DecidableEq, Repr

/-- Embeds Python truthiness of the `stream_sid` / `call_sid` locals: false
exactly when the value is `None` or the empty string. -/
def optTruthy (x : Option String) : Bool :=
  match x with
  | none => false
  | some s => s != ""

/-- The environment one run of `handle_call` interacts with: the two
database tables it queries, the first message received on the channel,
whether pipeline construction (steps 6-8 of the source) raises, whether
`task.run()` raises, and whether the websocket still reports `CONNECTED`
when the exception branch considers closing it. -/
structure CallWorld where
  phone_numbers : List PhoneRecord
  assistants : List Assistant
  first_message : StartMessage
  build_ok : Bool
  run_ok : Bool
  connected_after_error : Bool
deriving DecidableEq, Repr

/-- Observable actions of one `handle_call` run, in order. -/
inductive CallEvent where
  | acceptChannel
  | closeChannel
  | receiveMessage
  | buildPipeline
  | registerSession (call_sid : String)
  | queueTTS (text : String)
  | runPipeline
  | removeSession (call_sid : String)
deriving DecidableEq, Repr

/-- The outcome of one `handle_call` run: the final Session Registry key
set (`CallHandler.active_calls`), the event trace, and the final value of
the local `call_sid` variable. -/
structure HandleResult where
  active_calls : List String
  trace : List CallEvent
  call_sid : Option String
deriving DecidableEq, Repr

/-- Embeds the dict insertion `self.active_calls[call_sid] = task` on the
key set of the registry. -/
def registryInsert (calls : List String) (sid : String) : List String :=
  if sid ∈ calls then calls else calls ++ [sid]

/-- Embeds the dict deletion `del self.active_calls[call_sid]` on the key
set of the registry (the key is removed entirely). -/
def registryRemove (calls : List String) (sid : String) : List String :=
  calls.filter (fun s => s != sid)

/-- Embeds the `finally` block of `handle_call` (lines 189-192):
`if call_sid in self.active_calls: del self.active_calls[call_sid]`, run on
every exit path; a `removeSession` event is recorded when a deletion
happens. -/
def finishCall (call_sid : Option String) (calls : List String)
    (trace : List CallEvent) : HandleResult :=
  match call_sid with
  | none => { active_calls := calls, trace := trace, call_sid := none }
  | some sid =>
      if sid ∈ calls then
        { active_calls := registryRemove calls sid
          trace := trace ++ [CallEvent.removeSession sid]
          call_sid := some sid }
      else
        { active_calls := calls, trace := trace, call_sid := some sid }

/-- Embeds `CallHandler.handle_call(websocket, from_number, to_number)` as a
function of the environment `w` and the registry key set `calls0` at entry.
Each `return`, and the exception path, flows through `finishCall` (the
source's `finally` block).  `_setup_function_calling` catches all of its own
exceptions and mutates no state verified here, so it contributes no event. -/
def handle_call (w : CallWorld) (from_number to_number : String)
    (calls0 : List String) : HandleResult :=
  let trace0 := [CallEvent.acceptChannel]
  if to_number = "" then
    finishCall none calls0 (trace0 ++ [CallEvent.closeChannel])
  else
    match w.phone_numbers.find? (fun r => r.phone_number == to_number) with
    | none => finishCall none calls0 (trace0 ++ [CallEvent.closeChannel])
    | some phone_record =>
      match phone_record.assistant_id with
      | none => finishCall none calls0 (trace0 ++ [CallEvent.closeChannel])
      | some assistant_id =>
        match w.assistants.find? (fun a => a.id == assistant_id) with
        | none => finishCall none calls0 (trace0 ++ [CallEvent.closeChannel])
        | some assistant =>
          let trace1 := trace0 ++ [CallEvent.receiveMessage]
          let msg := w.first_message
          if msg.event ≠ "start" then
            finishCall none calls0 (trace1 ++ [CallEvent.closeChannel])
          else if optTruthy msg.streamSid && optTruthy msg.callSid then
            let csid := msg.callSid.getD ""
            if w.build_ok then
              let config := create_agent_config assistant
              let trace2 := trace1 ++ [CallEvent.buildPipeline]
              let calls1 := registryInsert calls0 csid
              let trace3 := trace2 ++ [CallEvent.registerSession csid]
              let trace4 := trace3 ++ [CallEvent.queueTTS config.greeting_message]
              let trace5 := trace4 ++ [CallEvent.runPipeline]
              if w.run_ok then
                finishCall (some csid) calls1 trace5
              else
                finishCall (some csid) calls1
                  (trace5 ++ if w.connected_after_error then [CallEvent.closeChannel] else [])
            else
              finishCall (some csid) calls0
                (trace1 ++ if w.connected_after_error then [CallEvent.closeChannel] else [])
          else
            finishCall msg.callSid calls0 (trace1 ++ [CallEvent.closeChannel])

/-! ## Tool dispatch (`voice/function_mapper.py`) -/

/-- Embeds the `ToolType` enum of `models/tool.py` as dispatched on by
`FunctionMapper.map_tool_to_function`. -/
inductive ToolType where
  | TRANSFER_CALL
  | API_REQUEST
  | END_CALL
  | SEND_SMS
  | SEND_EMAIL
deriving DecidableEq, Repr

/-- Embeds the columns of a `tools` row that `map_tool_to_function` reads to
pick and describe a handler. -/
structure Tool where
  name : String
  description : String
  tool_type : ToolType
deriving DecidableEq, Repr

/-- Embeds the `name` / `description` header of the function schema each
`_map_*` branch builds. -/
structure FunctionSchema where
  name : String
  description : String
deriving DecidableEq, Repr

/-- Tags which handler closure a successful mapping produced. -/
inductive MappedHandler where
  | transfer_handler
  | api_handler
  | end_call_handler
deriving DecidableEq, Repr

/-- Embeds `FunctionMapper.map_tool_to_function(tool)`: the category
dispatch of lines 57-68.  `Except.error` models a raised exception — the
source's `_map_send_sms` and `_map_send_email` raise `NotImplementedError`
before any schema or handler exists. -/
def map_tool_to_function (tool : Tool) : Except String (FunctionSchema × MappedHandler) :=
  match tool.tool_type with
  | ToolType.TRANSFER_CALL =>
      Except.ok ({ name := tool.name, description := tool.description },
        MappedHandler.transfer_handler)
  | ToolType.API_REQUEST =>
      Except.ok ({ name := tool.name, description := tool.description },
        MappedHandler.api_handler)
  | ToolType.END_CALL =>
      Except.ok ({ name := tool.name, description := tool.description },
        MappedHandler.end_call_handler)
  | ToolType.SEND_SMS => Except.error "SMS sending not yet implemented"
  | ToolType.SEND_EMAIL => Except.error "Email sending not yet implemented"

/-- Embeds the registration loop of `CallHandler._setup_function_calling`
(lines 282-294): each tool is mapped and registered with the language-model
stage; a per-tool exception is caught and logged, so a failing tool is
skipped and the loop continues.  Returns the registered function names. -/
def registerTools (tools : List Tool) : List String :=
  tools.filterMap (fun tool =>
    match map_tool_to_function tool with
    | Except.ok (schema, _) => some schema.name
    | Except.error _ => none)

/-- Embeds the response object the api-request handler sees: the HTTP
status code and the parsed body delivered on success. -/
structure HttpResponse where
  status_code : Nat
  body : String
deriving DecidableEq, Repr

/-- The payload the api-request handler passes to `result_callback`: either
the response data, or the structured failure object
`\x7b"error": str(e), "status": "failed"\x7d`. -/
inductive ApiPayload where
  | data (body : String)
  | failure (error : String)
deriving DecidableEq, Repr

/-- Embeds `httpx`'s success range as tested by `raise_for_status`: a
non-2xx response raises `HTTPStatusError` (a subclass of `HTTPError`). -/
def is2xx (status : Nat) : Bool := 200 ≤ status && status < 300

/-- Embeds the `api_handler` closure built by `FunctionMapper._map_api_request`
(lines 167-199).  `request_outcome` is what the `httpx` request does:
`Except.error e` is a raised `httpx.HTTPError` (network failure, unreachable
host, timeout), `Except.ok resp` a response, on which `raise_for_status`
then raises for a non-2xx status; both raises are caught by the handler's
`except httpx.HTTPError` clause and turned into the failure payload.  An
HTTP method outside GET/POST/PUT/DELETE leaves the `response` local unbound
in the source, raising a `NameError` that the clause does not catch —
modelled by the outer `Except.error`. -/
def api_request_handler (method : String)
    (request_outcome : Except String HttpResponse) : Except String ApiPayload :=
  if method = "GET" ∨ method = "POST" ∨ method = "PUT" ∨ method = "DELETE" then
    match request_outcome with
    | Except.error e => Except.ok (ApiPayload.failure e)
    | Except.ok resp =>
        if is2xx resp.status_code then Except.ok (ApiPayload.data resp.body)
        else Except.ok (ApiPayload.failure ("HTTP status error: " ++ toString resp.status_code))
  else
    Except.error "NameError: response is not defined"

/-! ## Knowledge entries (`api/knowledge_bases.py`, `models/knowledge_entry.py`) -/

/-- Embeds an entry row as the `list_entries` endpoint addresses it (a
`knowledge_base_id` scope column); dates are days as natural numbers,
`none` a NULL `expiration_date`.  The current `models/knowledge_entry.py`
declares `hotel_id` instead of `knowledge_base_id` — see
`list_entries_column_mismatch` below. -/
structure KnowledgeEntry where
  knowledge_base_id : String
  question : String
  answer : String
  category : Option String
  expiration_date : Option Nat
deriving DecidableEq, Repr

/-- Embeds the `KnowledgeEntry.is_expired` property of
`models/knowledge_entry.py`: no expiration date is never expired, otherwise
expired exactly when today is strictly past the date. -/
def KnowledgeEntry.is_expired (e : KnowledgeEntry) (today : Nat) : Bool :=
  match e.expiration_date with
  | none => false
  | some d => decide (d < today)

/-- Embeds the `list_entries` endpoint of `api/knowledge_bases.py`
(lines 328-344) as a function of the table contents and today's date: scope
to the knowledge base, apply the category filter when the parameter is
truthy, and unless `include_expired` keep only rows whose expiration date
is NULL or at least today.  (The SQL `ORDER BY created_at DESC` only
reorders; the table order stands in for it here.  On the current
`KnowledgeEntry` model the scope filter raises — see
`list_entries_column_mismatch`.) -/
def list_entries (entries : List KnowledgeEntry) (kb_id : String)
    (include_expired : Bool) (category : Option String) (today : Nat) :
    List KnowledgeEntry :=
  let q1 := entries.filter (fun e => e.knowledge_base_id == kb_id)
  let q2 := match category with
    | none => q1
    | some c => if c = "" then q1 else q1.filter (fun e => e.category == some c)
  if include_expired then q2
  else q2.filter (fun e =>
    match e.expiration_date with
    | none => true
    | some d => decide (today ≤ d))

/-- The category filter of `list_entries` as a predicate on one entry:
no filter, or a falsy (empty) filter, matches everything. -/
def categoryMatches (category : Option String) (e : KnowledgeEntry) : Bool :=
  match category with
  | none => true
  | some c => if c = "" then true else e.category == some c

/-! ## Theorems: knowledge retrieval -/

/-- The two empty-result short-circuits of `load_hotel_knowledge`: with no
knowledge base for the hotel, or no document in its bases, the function
returns the empty string. -/
theorem load_hotel_knowledge_of_empty (kbs : List KnowledgeBase)
    (docs : List KnowledgeDocument) (hotel_id : String)
    (h : (kbs.filter (fun kb => kb.hotel_id == hotel_id)).isEmpty = true ∨
         (hotelDocuments kbs docs hotel_id).isEmpty = true) :
    load_hotel_knowledge kbs docs hotel_id = "" := by
  simp only [load_hotel_knowledge, hotelDocuments] at *
  rcases h with h | h
  · simp only [h, if_true]
  · rw [List.isEmpty_iff] at h
    rw [h]
    cases hkb : (kbs.filter (fun kb => kb.hotel_id == hotel_id)).isEmpty <;>
      simp [hkb]

/-- Unconditional description of `load_hotel_knowledge`: it returns the
combined corpus text of the hotel's documents, truncated at
`MAX_KNOWLEDGE_CHARS` with the marker appended exactly when the combination
is longer than the cap (the empty short-circuits coincide with the empty
combination). -/
theorem load_hotel_knowledge_eq (kbs : List KnowledgeBase)
    (docs : List KnowledgeDocument) (hotel_id : String) :
    load_hotel_knowledge kbs docs hotel_id =
      (if (combinedContent (hotelDocuments kbs docs hotel_id)).length > MAX_KNOWLEDGE_CHARS
       then (combinedContent (hotelDocuments kbs docs hotel_id)).take MAX_KNOWLEDGE_CHARS ++
              "\n\n[... content truncated for length]"
       else combinedContent (hotelDocuments kbs docs hotel_id)) := by
  simp only [load_hotel_knowledge, hotelDocuments]
  cases hkb : (kbs.filter (fun kb => kb.hotel_id == hotel_id)).isEmpty with
  | true =>
      have hfilter : docs.filter (fun d =>
          (kbs.filter (fun kb => kb.hotel_id == hotel_id)).any
            (fun kb => kb.id == d.knowledge_base_id)) = [] := by
        rw [List.isEmpty_iff] at hkb
        rw [hkb]
        simp
      rw [hfilter]
      simp only [hkb, if_true, List.isEmpty_nil]
      rfl
  | false =>
      cases hd : (docs.filter (fun d =>
          (kbs.filter (fun kb => kb.hotel_id == hotel_id)).any
            (fun kb => kb.id == d.knowledge_base_id))).isEmpty with
      | true =>
          rw [List.isEmpty_iff] at hd
          rw [hd]
          simp only [hkb, Bool.false_eq_true, if_false, List.isEmpty_nil, if_true]
          rfl
      | false =>
          simp only [hkb, hd, Bool.false_eq_true, if_false]

/-- Evaluation of the combined content of a one-document corpus. -/
theorem combinedContent_singleton (d : KnowledgeDocument) :
    combinedContent [d] = "# " ++ d.filename ++ "\n\n" ++ d.content := by
  simp [combinedContent, String.intercalate, String.intercalate.go]

/-- C6: a corpus whose concatenated document text exceeds
`MAX_KNOWLEDGE_CHARS` (50000) is truncated deterministically at that hard
cap with the explicit truncation marker appended; a concatenation at or
below the ceiling is returned unmodified. -/
theorem load_hotel_knowledge_truncates_at_cap (kbs : List KnowledgeBase)
    (docs : List KnowledgeDocument) (hotel_id : String) :
    ((combinedContent (hotelDocuments kbs docs hotel_id)).length > MAX_KNOWLEDGE_CHARS →
      load_hotel_knowledge kbs docs hotel_id =
        (combinedContent (hotelDocuments kbs docs hotel_id)).take MAX_KNOWLEDGE_CHARS ++
          "\n\n[... content truncated for length]") ∧
    ((combinedContent (hotelDocuments kbs docs hotel_id)).length ≤ MAX_KNOWLEDGE_CHARS →
      load_hotel_knowledge kbs docs hotel_id =
        combinedContent (hotelDocuments kbs docs hotel_id)) := by
  rw [load_hotel_knowledge_eq]
  constructor
  · intro h
    rw [if_pos h]
  · intro h
    rw [if_neg (by omega)]

/-- Witness for C6: a 50001-character document is truncated at the cap with
the marker appended; an 11-character document is returned unmodified. -/
theorem load_hotel_knowledge_truncates_at_cap_witness :
    load_hotel_knowledge [⟨"kb1", "h1"⟩]
        [⟨"kb1", "menu.txt", String.mk (List.replicate 50001 'a')⟩] "h1" =
      (combinedContent (hotelDocuments [⟨"kb1", "h1"⟩]
          [⟨"kb1", "menu.txt", String.mk (List.replicate 50001 'a')⟩] "h1")).take
          MAX_KNOWLEDGE_CHARS ++ "\n\n[... content truncated for length]" ∧
    load_hotel_knowledge [⟨"kb1", "h1"⟩] [⟨"kb1", "hours.txt", "Open daily."⟩] "h1" =
      combinedContent (hotelDocuments [⟨"kb1", "h1"⟩]
        [⟨"kb1", "hours.txt", "Open daily."⟩] "h1") := by
  constructor
  · apply (load_hotel_knowledge_truncates_at_cap _ _ _).1
    have h1 : hotelDocuments [⟨"kb1", "h1"⟩]
        [⟨"kb1", "menu.txt", String.mk (List.replicate 50001 'a')⟩] "h1"
        = [⟨"kb1", "menu.txt", String.mk (List.replicate 50001 'a')⟩] := rfl
    have hbig : (String.mk (List.replicate 50001 'a')).length = 50001 := by
      show (List.replicate 50001 'a').length = 50001
      rw [List.length_replicate]
    have h2 : ("# " : String).length = 2 := rfl
    have h3 : ("menu.txt" : String).length = 8 := rfl
    have h4 : ("\n\n" : String).length = 2 := rfl
    rw [h1, combinedContent_singleton]
    simp only [String.length_append, hbig, h2, h3, h4, MAX_KNOWLEDGE_CHARS]
    omega
  · apply (load_hotel_knowledge_truncates_at_cap _ _ _).2
    decide

/-- C5: with both arguments present, a tenant whose corpus is empty (no
knowledge base, or no document in its bases) gets the canned "not
available" answer through the result callback, and `query_with_rag` (the
language-model completion) is never invoked. -/
theorem empty_corpus_canned_answer (question hotel_id : String)
    (kbs : List KnowledgeBase) (docs : List KnowledgeDocument)
    (rag : String → String → Except String String)
    (hq : question ≠ "") (hh : hotel_id ≠ "")
    (hempty : (kbs.filter (fun kb => kb.hotel_id == hotel_id)).isEmpty = true ∨
              (hotelDocuments kbs docs hotel_id).isEmpty = true) :
    query_hotel_knowledge question hotel_id kbs docs rag =
      { answer := "I don't have that information available. Let me connect you with our front desk."
        corpus_loaded := true
        rag_invoked := false } := by
  have hl := load_hotel_knowledge_of_empty kbs docs hotel_id hempty
  simp [query_hotel_knowledge, hq, hh, hl]

/-- Witness for C5: a hotel with no knowledge base at all. -/
theorem empty_corpus_canned_answer_witness :
    query_hotel_knowledge "Is there a pool?" "h1" [] []
        (fun c q => Except.ok (c ++ q)) =
      { answer := "I don't have that information available. Let me connect you with our front desk."
        corpus_loaded := true
        rag_invoked := false } :=
  empty_corpus_canned_answer "Is there a pool?" "h1" [] [] _ (by decide) (by decide)
    (Or.inl rfl)

/-- C10: a missing or empty "question" argument yields the reprompt answer,
and a missing "hotel_id" (with a question present) yields the apology
answer; in both cases no corpus is loaded and no model request is issued. -/
theorem query_missing_argument_short_circuits (question hotel_id : String)
    (kbs : List KnowledgeBase) (docs : List KnowledgeDocument)
    (rag : String → String → Except String String) :
    (question = "" →
      query_hotel_knowledge question hotel_id kbs docs rag =
        { answer := "I didn't catch your question. Could you please repeat that?"
          corpus_loaded := false, rag_invoked := false }) ∧
    (question ≠ "" → hotel_id = "" →
      query_hotel_knowledge question hotel_id kbs docs rag =
        { answer := "I'm sorry, I don't have access to hotel information right now."
          corpus_loaded := false, rag_invoked := false }) := by
  constructor
  · intro hq
    simp [query_hotel_knowledge, hq]
  · intro hq hh
    simp [query_hotel_knowledge, hq, hh]

/-- Witness for C10: an empty question, then a present question with a
missing hotel id. -/
theorem query_missing_argument_short_circuits_witness :
    query_hotel_knowledge "" "h1" [] [] (fun c q => Except.ok (c ++ q)) =
      { answer := "I didn't catch your question. Could you please repeat that?"
        corpus_loaded := false, rag_invoked := false } ∧
    query_hotel_knowledge "When is breakfast?" "" [] [] (fun c q => Except.ok (c ++ q)) =
      { answer := "I'm sorry, I don't have access to hotel information right now."
        corpus_loaded := false, rag_invoked := false } :=
  ⟨(query_missing_argument_short_circuits "" "h1" [] [] _).1 rfl,
   (query_missing_argument_short_circuits "When is breakfast?" "" [] [] _).2 (by decide) rfl⟩

/-! ## Theorems: session orchestrator -/

/-- The final `call_sid` of a `finishCall` outcome is the one it was
given. -/
theorem finishCall_call_sid (o : Option String) (calls : List String)
    (trace : List CallEvent) : (finishCall o calls trace).call_sid = o := by
  unfold finishCall
  cases o with
  | none => rfl
  | some sid =>
      by_cases h : sid ∈ calls
      · simp [h]
      · simp [h]

/-- After the `finally` block, the call id it was given is not a key of the
registry. -/
theorem finishCall_not_mem (o : Option String) (calls : List String)
    (trace : List CallEvent) (sid : String) (h : o = some sid) :
    sid ∉ (finishCall o calls trace).active_calls := by
  subst h
  unfold finishCall
  by_cases hmem : sid ∈ calls
  · simp only [hmem, if_true]
    intro hin
    have := (List.mem_filter.mp hin).2
    simp at this
  · simp only [hmem, if_false]
    exact not_false

/-- Every exit path of `handle_call` flows through `finishCall`. -/
theorem handle_call_shape (w : CallWorld) (f t : String) (calls0 : List String) :
    ∃ o calls trace, handle_call w f t calls0 = finishCall o calls trace := by
  simp only [handle_call]
  repeat' split
  all_goals exact ⟨_, _, _, rfl⟩

/-- C1: when `handle_call` returns, the call id it parsed from the start
event (when it reached one) is absent from the Session Registry, on every
exit path. -/
theorem handle_call_registry_cleanup (w : CallWorld) (f t : String)
    (calls0 : List String) (sid : String)
    (h : (handle_call w f t calls0).call_sid = some sid) :
    sid ∉ (handle_call w f t calls0).active_calls := by
  obtain ⟨o, calls, trace, heq⟩ := handle_call_shape w f t calls0
  rw [heq] at h ⊢
  rw [finishCall_call_sid] at h
  exact finishCall_not_mem o calls trace sid h

/-- The event trace of `finishCall` is the trace it was given, possibly
extended by one `removeSession` event. -/
theorem finishCall_trace_cases (o : Option String) (calls : List String)
    (tr : List CallEvent) :
    (finishCall o calls tr).trace = tr ∨
      ∃ sid, (finishCall o calls tr).trace = tr ++ [CallEvent.removeSession sid] := by
  unfold finishCall
  cases o with
  | none => exact Or.inl rfl
  | some sid =>
      by_cases hm : sid ∈ calls
      · exact Or.inr ⟨sid, by simp [hm]⟩
      · exact Or.inl (by simp [hm])

/-- A `finishCall` outcome never adds a registry key. -/
theorem finishCall_calls_subset (o : Option String) (calls : List String)
    (tr : List CallEvent) :
    ∀ s, s ∈ (finishCall o calls tr).active_calls → s ∈ calls := by
  unfold finishCall
  cases o with
  | none => exact fun s h => h
  | some sid =>
      by_cases hm : sid ∈ calls
      · simp only [hm, if_true]
        intro s hs
        exact (List.mem_filter.mp hs).1
      · simp only [hm, if_false]
        exact fun s h => h

/-- C3: when routing succeeded but the first message on the channel is not
a start event, or lacks a (nonempty) stream id or call id, `handle_call`
closes the channel and returns: no pipeline is built, no session is
registered, the registry gains no key, the pipeline never runs, and exactly
one message was read from the channel. -/
theorem bad_handshake_no_session (w : CallWorld) (f t : String)
    (calls0 : List String) (pr : PhoneRecord) (aid : String) (assistant : Assistant)
    (ht : t ≠ "")
    (hpr : w.phone_numbers.find? (fun r => r.phone_number == t) = some pr)
    (haid : pr.assistant_id = some aid)
    (hass : w.assistants.find? (fun a => a.id == aid) = some assistant)
    (hbad : w.first_message.event ≠ "start" ∨
            optTruthy w.first_message.streamSid = false ∨
            optTruthy w.first_message.callSid = false) :
    CallEvent.closeChannel ∈ (handle_call w f t calls0).trace ∧
    CallEvent.buildPipeline ∉ (handle_call w f t calls0).trace ∧
    (∀ sid, CallEvent.registerSession sid ∉ (handle_call w f t calls0).trace) ∧
    CallEvent.runPipeline ∉ (handle_call w f t calls0).trace ∧
    (handle_call w f t calls0).trace.count CallEvent.receiveMessage = 1 ∧
    (∀ sid, sid ∈ (handle_call w f t calls0).active_calls → sid ∈ calls0) := by
  have htr : ∃ o, handle_call w f t calls0 =
      finishCall o calls0
        [CallEvent.acceptChannel, CallEvent.receiveMessage, CallEvent.closeChannel] := by
    unfold handle_call
    by_cases hev : w.first_message.event ≠ "start"
    · refine ⟨none, ?_⟩
      simp only [if_neg ht, hpr, haid, hass, if_pos hev]
      rfl
    · have hc : (optTruthy w.first_message.streamSid &&
          optTruthy w.first_message.callSid) = false := by
        rcases hbad with hb | hb | hb
        · exact absurd hb hev
        · simp [hb]
        · simp [hb]
      refine ⟨w.first_message.callSid, ?_⟩
      simp only [if_neg ht, hpr, haid, hass, if_neg hev, hc, Bool.false_eq_true, if_false]
      rfl
  obtain ⟨o, htr⟩ := htr
  rw [htr]
  rcases finishCall_trace_cases o calls0
      [CallEvent.acceptChannel, CallEvent.receiveMessage, CallEvent.closeChannel] with
    he | ⟨sid, he⟩ <;>
    rw [he] <;>
    refine ⟨by simp, by simp, fun s => by simp, by simp, by simp [List.count_cons], ?_⟩ <;>
    exact finishCall_calls_subset o calls0 _

/-- A world in which routing and the handshake succeed. -/
def wOk : CallWorld :=
  { phone_numbers := [{ phone_number := "+15550100", assistant_id := some "a1" }]
    assistants := [{ id := "a1", hotel_id := "h1", name := "Ava"
                     system_prompt := some "Be helpful."
                     greeting_message := some "Hello! How can I help?" }]
    first_message := { event := "start", streamSid := some "MZ1", callSid := some "CA1" }
    build_ok := true
    run_ok := true
    connected_after_error := true }

/-- Witness for C1: a successfully routed and answered call leaves no
registry entry behind. -/
theorem handle_call_registry_cleanup_witness :
    "CA1" ∉ (handle_call wOk "+15557777" "+15550100" []).active_calls :=
  handle_call_registry_cleanup wOk "+15557777" "+15550100" [] "CA1" (by decide)

/-- Evaluation of `finishCall` with no call id. -/
theorem finishCall_none (calls : List String) (trace : List CallEvent) :
    finishCall none calls trace =
      { active_calls := calls, trace := trace, call_sid := none } := rfl

/-- C2: a callee number with no phone-number record, or a record with no
assistant assignment, makes `handle_call` close the channel and return with
the registry unchanged, never building a pipeline and never registering a
session. -/
theorem routing_failure_no_session (w : CallWorld) (f t : String)
    (calls0 : List String)
    (h : (w.phone_numbers.find? (fun r => r.phone_number == t)).bind
           (fun pr => pr.assistant_id) = none) :
    (handle_call w f t calls0).active_calls = calls0 ∧
    CallEvent.closeChannel ∈ (handle_call w f t calls0).trace ∧
    CallEvent.buildPipeline ∉ (handle_call w f t calls0).trace ∧
    (∀ sid, CallEvent.registerSession sid ∉ (handle_call w f t calls0).trace) := by
  have htr : handle_call w f t calls0 =
      finishCall none calls0 [CallEvent.acceptChannel, CallEvent.closeChannel] := by
    by_cases ht : t = ""
    · unfold handle_call
      simp [ht]
    · cases hpr : w.phone_numbers.find? (fun r => r.phone_number == t) with
      | none =>
          unfold handle_call
          simp only [if_neg ht, hpr]
          rfl
      | some pr =>
          rw [hpr] at h
          cases haid : pr.assistant_id with
          | none =>
              unfold handle_call
              simp only [if_neg ht, hpr, haid]
              rfl
          | some aid =>
              exfalso
              rw [Option.some_bind, haid] at h
              exact Option.noConfusion h
  rw [htr, finishCall_none]
  refine ⟨rfl, by simp, by simp, fun sid => by simp⟩

/-- Witness for C2: a callee number whose record has no assistant
assignment. -/
theorem routing_failure_no_session_witness :
    (handle_call
        { phone_numbers := [{ phone_number := "+15550200", assistant_id := none }]
          assistants := []
          first_message := { event := "start", streamSid := some "MZ2", callSid := some "CA2" }
          build_ok := true, run_ok := true, connected_after_error := true }
        "+15557777" "+15550200" ["CA9"]).active_calls = ["CA9"] ∧
    CallEvent.closeChannel ∈ (handle_call
        { phone_numbers := [{ phone_number := "+15550200", assistant_id := none }]
          assistants := []
          first_message := { event := "start", streamSid := some "MZ2", callSid := some "CA2" }
          build_ok := true, run_ok := true, connected_after_error := true }
        "+15557777" "+15550200" ["CA9"]).trace :=
  ⟨(routing_failure_no_session _ "+15557777" "+15550200" ["CA9"] (by decide)).1,
   (routing_failure_no_session _ "+15557777" "+15550200" ["CA9"] (by decide)).2.1⟩

/-- A world identical to `wOk` except the first message on the channel is a
media event, not a start event. -/
def wBadHandshake : CallWorld :=
  { phone_numbers := [{ phone_number := "+15550100", assistant_id := some "a1" }]
    assistants := [{ id := "a1", hotel_id := "h1", name := "Ava"
                     system_prompt := some "Be helpful."
                     greeting_message := some "Hello! How can I help?" }]
    first_message := { event := "media", streamSid := none, callSid := none }
    build_ok := true
    run_ok := true
    connected_after_error := true }

/-- Witness for C3: the first message is a media event. -/
theorem bad_handshake_no_session_witness :
    CallEvent.closeChannel ∈ (handle_call wBadHandshake "+15557777" "+15550100" []).trace ∧
    CallEvent.buildPipeline ∉ (handle_call wBadHandshake "+15557777" "+15550100" []).trace ∧
    (∀ sid, CallEvent.registerSession sid ∉
      (handle_call wBadHandshake "+15557777" "+15550100" []).trace) ∧
    CallEvent.runPipeline ∉ (handle_call wBadHandshake "+15557777" "+15550100" []).trace ∧
    (handle_call wBadHandshake "+15557777" "+15550100" []).trace.count
      CallEvent.receiveMessage = 1 ∧
    (∀ sid, sid ∈ (handle_call wBadHandshake "+15557777" "+15550100" []).active_calls →
      sid ∈ ([] : List String)) :=
  bad_handshake_no_session wBadHandshake "+15557777" "+15550100" []
    { phone_number := "+15550100", assistant_id := some "a1" } "a1"
    { id := "a1", hotel_id := "h1", name := "Ava"
      system_prompt := some "Be helpful."
      greeting_message := some "Hello! How can I help?" }
    (by decide) rfl rfl rfl (Or.inl (by decide))

/-- The first `queueTTS` payload of a trace, if any. -/
def firstSpoken : List CallEvent → Option String
  | [] => none
  | CallEvent.queueTTS t :: _ => some t
  | _ :: rest => firstSpoken rest

/-- The inserted key is a member of the registry. -/
theorem registryInsert_mem (calls : List String) (sid : String) :
    sid ∈ registryInsert calls sid := by
  unfold registryInsert
  by_cases h : sid ∈ calls
  · simp [h]
  · simp [h]

/-- Intended greeting behavior of `handle_call` taken on its own terms (an
assistant row carrying the attributes the handler reads): on a successfully
routed call whose handshake succeeded and whose pipeline was built, the
configured greeting text is the first spoken output ever queued, and it is
queued before the pipeline run (hence before any caller audio is
processed).  On the current `Assistant` model this path is unreachable —
`create_agent_config_attribute_mismatch` records why. -/
theorem greeting_queued_first (w : CallWorld) (f t : String)
    (calls0 : List String) (pr : PhoneRecord) (aid : String) (assistant : Assistant)
    (csid : String) (g : String)
    (ht : t ≠ "")
    (hpr : w.phone_numbers.find? (fun r => r.phone_number == t) = some pr)
    (haid : pr.assistant_id = some aid)
    (hass : w.assistants.find? (fun a => a.id == aid) = some assistant)
    (hev : w.first_message.event = "start")
    (hss : optTruthy w.first_message.streamSid = true)
    (hcs : w.first_message.callSid = some csid)
    (hcsid : csid ≠ "")
    (hbuild : w.build_ok = true)
    (hg : assistant.greeting_message = some g)
    (hgne : g ≠ "") :
    (create_agent_config assistant).greeting_message = g ∧
    firstSpoken (handle_call w f t calls0).trace = some g ∧
    ∃ post, (handle_call w f t calls0).trace =
      [CallEvent.acceptChannel, CallEvent.receiveMessage, CallEvent.buildPipeline,
       CallEvent.registerSession csid, CallEvent.queueTTS g, CallEvent.runPipeline] ++ post := by
  have hcfg : (create_agent_config assistant).greeting_message = g := by
    simp [create_agent_config, orDefault, hg, hgne]
  have htruthy : (optTruthy w.first_message.streamSid &&
      optTruthy w.first_message.callSid) = true := by
    rw [hss, hcs]
    simp [optTruthy, hcsid]
  have hprefix : ∃ post, (handle_call w f t calls0).trace =
      [CallEvent.acceptChannel, CallEvent.receiveMessage, CallEvent.buildPipeline,
       CallEvent.registerSession csid, CallEvent.queueTTS g, CallEvent.runPipeline] ++ post := by
    unfold handle_call
    simp only [if_neg ht, hpr, haid, hass, hev, if_neg (by simp : ¬("start" ≠ "start")),
      htruthy, if_true, hcs, Option.getD_some, hbuild, hcfg]
    have hmem : csid ∈ registryInsert calls0 csid := registryInsert_mem calls0 csid
    obtain ⟨ss, hsseq, hssne⟩ : ∃ ss, w.first_message.streamSid = some ss ∧ (ss != "") = true := by
      cases hx : w.first_message.streamSid with
      | none => rw [hx] at hss; simp [optTruthy] at hss
      | some s =>
          rw [hx] at hss
          exact ⟨s, rfl, by simpa [optTruthy] using hss⟩
    cases hrun : w.run_ok with
    | true =>
        refine ⟨[CallEvent.removeSession csid], ?_⟩
        simp [finishCall, hmem, hsseq, optTruthy, hssne, hcsid]
    | false =>
        cases hconn : w.connected_after_error with
        | true =>
            refine ⟨[CallEvent.closeChannel, CallEvent.removeSession csid], ?_⟩
            simp [finishCall, hmem, hsseq, optTruthy, hssne, hcsid]
        | false =>
            refine ⟨[CallEvent.removeSession csid], ?_⟩
            simp [finishCall, hmem, hsseq, optTruthy, hssne, hcsid]
  obtain ⟨post, hpost⟩ := hprefix
  refine ⟨hcfg, ?_, ⟨post, hpost⟩⟩
  rw [hpost]
  simp [firstSpoken]


/-- Instance of `greeting_queued_first`: in `wOk` the greeting
"Hello! How can I help?" is the first spoken output and precedes the
pipeline run. -/
theorem greeting_queued_first_witness :
    (create_agent_config
      { id := "a1", hotel_id := "h1", name := "Ava"
        system_prompt := some "Be helpful."
        greeting_message := some "Hello! How can I help?" }).greeting_message =
      "Hello! How can I help?" ∧
    firstSpoken (handle_call wOk "+15557777" "+15550100" []).trace =
      some "Hello! How can I help?" ∧
    ∃ post, (handle_call wOk "+15557777" "+15550100" []).trace =
      [CallEvent.acceptChannel, CallEvent.receiveMessage, CallEvent.buildPipeline,
       CallEvent.registerSession "CA1", CallEvent.queueTTS "Hello! How can I help?",
       CallEvent.runPipeline] ++ post :=
  greeting_queued_first wOk "+15557777" "+15550100" []
    { phone_number := "+15550100", assistant_id := some "a1" } "a1"
    { id := "a1", hotel_id := "h1", name := "Ava"
      system_prompt := some "Be helpful."
      greeting_message := some "Hello! How can I help?" }
    "CA1" "Hello! How can I help?"
    (by decide) rfl rfl rfl rfl (by decide) rfl (by decide) rfl rfl (by decide)

/-! ## Theorems: tool dispatch and knowledge entries -/

/-- C7: for an api-request invocation with a supported HTTP method whose
request fails — a raised transport error (unreachable host, network error,
timeout) or a non-2xx response — the handler returns normally (nothing
escapes the call task) and delivers the structured failure payload to the
result callback. -/
theorem api_request_failure_payload (method : String)
    (request_outcome : Except String HttpResponse)
    (hm : method = "GET" ∨ method = "POST" ∨ method = "PUT" ∨ method = "DELETE")
    (hfail : (∃ e, request_outcome = Except.error e) ∨
             (∃ resp, request_outcome = Except.ok resp ∧ is2xx resp.status_code = false)) :
    ∃ err, api_request_handler method request_outcome =
      Except.ok (ApiPayload.failure err) := by
  unfold api_request_handler
  rw [if_pos hm]
  rcases hfail with ⟨e, he⟩ | ⟨resp, hr, h2⟩
  · rw [he]
    exact ⟨e, rfl⟩
  · rw [hr]
    simp only [h2, Bool.false_eq_true, if_false]
    exact ⟨_, rfl⟩

/-- Witness for C7: a refused connection, then a 503 response. -/
theorem api_request_failure_payload_witness :
    (∃ err, api_request_handler "GET" (Except.error "ConnectError: connection refused") =
      Except.ok (ApiPayload.failure err)) ∧
    (∃ err, api_request_handler "GET"
        (Except.ok { status_code := 503, body := "upstream error" }) =
      Except.ok (ApiPayload.failure err)) :=
  ⟨api_request_failure_payload "GET" _ (Or.inl rfl) (Or.inl ⟨_, rfl⟩),
   api_request_failure_payload "GET" _ (Or.inl rfl) (Or.inr ⟨_, rfl, by decide⟩)⟩

/-- The send-sms tool used as the concrete input for C9. -/
def smsTool : Tool :=
  { name := "send_confirmation_sms"
    description := "Send a confirmation text message to the guest."
    tool_type := ToolType.SEND_SMS }

/-- An end-call tool, mapped successfully, used alongside `smsTool`. -/
def endTool : Tool :=
  { name := "end_current_call"
    description := "End the call."
    tool_type := ToolType.END_CALL }

/-- C9 counterexample: mapping a send-sms tool raises
`NotImplementedError` at registration time, so no schema or handler is ever
produced — there is no handler whose invocation could return a "not
supported" result to the dialogue. -/
theorem sms_mapping_raises_counterexample :
    map_tool_to_function smsTool = Except.error "SMS sending not yet implemented" ∧
    ¬ ∃ schema handler, map_tool_to_function smsTool = Except.ok (schema, handler) := by
  refine ⟨rfl, ?_⟩
  rintro ⟨s, h, heq⟩
  rw [show map_tool_to_function smsTool =
    Except.error "SMS sending not yet implemented" from rfl] at heq
  exact Except.noConfusion heq

/-- C9 amended: mapping a send-sms or send-email tool fails with a
"not yet implemented" error; the registration loop catches the failure and
skips the tool, so registration does not crash and the tool is never
registered. -/
theorem sms_email_mapping_not_implemented (tool : Tool)
    (h : tool.tool_type = ToolType.SEND_SMS ∨ tool.tool_type = ToolType.SEND_EMAIL) :
    (∃ msg, map_tool_to_function tool = Except.error msg) ∧
    (∀ rest, registerTools (tool :: rest) = registerTools rest) := by
  rcases h with h | h <;>
  · constructor
    · unfold map_tool_to_function
      rw [h]
      exact ⟨_, rfl⟩
    · intro rest
      unfold registerTools
      simp [List.filterMap_cons, map_tool_to_function, h]

/-- Witness for C9 (amended): the sms tool is skipped while the end-call
tool after it still registers. -/
theorem sms_email_mapping_not_implemented_witness :
    map_tool_to_function smsTool = Except.error "SMS sending not yet implemented" ∧
    registerTools [smsTool, endTool] = registerTools [endTool] :=
  ⟨rfl, (sms_email_mapping_not_implemented smsTool (Or.inl rfl)).2 [endTool]⟩

/-- The non-expired filter of `list_entries` keeps exactly the entries that
`KnowledgeEntry.is_expired` rejects. -/
theorem not_expired_filter_iff (e : KnowledgeEntry) (today : Nat) :
    ((match e.expiration_date with
      | none => true
      | some d => decide (today ≤ d)) = true) ↔ e.is_expired today = false := by
  unfold KnowledgeEntry.is_expired
  cases e.expiration_date with
  | none => simp
  | some d =>
      simp only [decide_eq_true_eq, decide_eq_false_iff_not]
      omega

/-- Intended filter semantics of `list_entries`: with
`include_expired = false` it returns exactly the entries of the knowledge
base that pass the category filter and whose expiration date is null or not
in the past (`is_expired` false); with `include_expired = true` it returns
all of them, expired included; the category filter applies in both modes.
On the current `KnowledgeEntry` model the endpoint raises before filtering
— `list_entries_column_mismatch` records why. -/
theorem list_entries_expiration (entries : List KnowledgeEntry) (kb_id : String)
    (category : Option String) (today : Nat) (e : KnowledgeEntry) :
    (e ∈ list_entries entries kb_id false category today ↔
      e ∈ entries ∧ e.knowledge_base_id = kb_id ∧ categoryMatches category e = true ∧
        e.is_expired today = false) ∧
    (e ∈ list_entries entries kb_id true category today ↔
      e ∈ entries ∧ e.knowledge_base_id = kb_id ∧ categoryMatches category e = true) := by
  unfold list_entries categoryMatches
  cases category with
  | none =>
      simp [List.mem_filter, not_expired_filter_iff, and_assoc, and_comm, and_left_comm]
  | some c =>
      by_cases hc : c = ""
      · simp [hc, List.mem_filter, not_expired_filter_iff, and_assoc, and_comm, and_left_comm]
      · simp [hc, List.mem_filter, not_expired_filter_iff, and_assoc, and_comm, and_left_comm]

/-! ## Schema drift between the voice layer and the current models

`CallHandler._create_agent_config` and the knowledge-base API were written
against an older schema: they read attributes the current SQLAlchemy models
no longer declare.  The lists below transcribe, verbatim, the attribute
names declared by each model and the attribute names the caller reads. -/

/-- The attributes declared by `models/assistant.py`'s `Assistant`. -/
def assistantModelAttributes : List String :=
  ["id", "hotel_id", "name", "description", "stt_provider", "llm_provider",
   "tts_provider", "stt_model", "llm_model", "tts_model", "tts_voice",
   "system_prompt", "first_message", "language", "temperature", "max_tokens",
   "stt_config", "llm_config", "tts_config", "is_active", "created_at",
   "updated_at"]

/-- The `Assistant` attributes read by `CallHandler._create_agent_config`
(lines 204-225 of `call_handler.py`). -/
def createAgentConfigReads : List String :=
  ["id", "hotel_id", "name", "description", "status", "stt_provider",
   "stt_model", "stt_language", "stt_config", "llm_provider", "llm_model",
   "temperature", "max_tokens", "llm_config", "tts_provider", "tts_voice",
   "tts_model", "tts_speed", "tts_config", "system_prompt", "greeting_message"]

/-- C4 failing evaluation: `_create_agent_config` reads the attributes
`status`, `stt_language`, `tts_speed` and `greeting_message`, none of which
the current `Assistant` model declares (its greeting column is
`first_message`), so on every routed call the config creation raises
`AttributeError` before any greeting is queued. -/
theorem create_agent_config_attribute_mismatch :
    "status" ∈ createAgentConfigReads ∧
    "stt_language" ∈ createAgentConfigReads ∧
    "tts_speed" ∈ createAgentConfigReads ∧
    "greeting_message" ∈ createAgentConfigReads ∧
    "status" ∉ assistantModelAttributes ∧
    "stt_language" ∉ assistantModelAttributes ∧
    "tts_speed" ∉ assistantModelAttributes ∧
    "greeting_message" ∉ assistantModelAttributes := by decide

/-- The attributes declared by `models/knowledge_entry.py`'s
`KnowledgeEntry` (ownership was "simplified from knowledge_base_id" to a
direct `hotel_id`). -/
def knowledgeEntryModelAttributes : List String :=
  ["id", "hotel_id", "question", "answer", "category", "expiration_date",
   "created_at", "updated_at"]

/-- C8 failing evaluation: `list_entries` filters on
`KnowledgeEntry.knowledge_base_id`, an attribute the current model does not
declare, so the endpoint raises `AttributeError` on every request instead
of returning the filtered entries. -/
theorem list_entries_column_mismatch :
    "knowledge_base_id" ∉ knowledgeEntryModelAttributes ∧
    "expiration_date" ∈ knowledgeEntryModelAttributes := by decide

end Botelier
